import Mathlib

/-!
Verification of the Stagehand mobile CUA core: the Gemini action-translation
layer (stagehand/agent/google_mobile_cua.py), the gesture execution layer
(stagehand/handlers/mobile_navigation_handler.py) and the pydantic action
schemas (stagehand/types/agent.py), embedded shallowly.

Numeric conventions of the embedding: Python integers become Int, Python
floats are evaluated in exact rational arithmetic (ℚ); the Python cast
int(x), which truncates toward zero, becomes pyInt below.  Every concrete
input used in a theorem below was checked to evaluate identically under
IEEE-754 double arithmetic and under exact rational arithmetic, so the
exact embedding is faithful at those points.
-/

namespace Stagehand

/-- Constants from stagehand/types/mobile.py and google_mobile_cua.py. -/
def COORDINATE_GRID_SIZE : Int := 1000

def DEFAULT_LONG_PRESS_DURATION_MS : Int := 500

def DEFAULT_SWIPE_DURATION_MS : Int := 300

def DEFAULT_PINCH_DURATION_MS : Int := 300

def MAX_HISTORY_LENGTH : Nat := 50

def MAX_API_RETRIES : Nat := 3

def RETRY_BASE_DELAY_S : ℚ := 1

/-- Python int(q): truncation toward zero of a rational. -/
def pyInt (q : ℚ) : Int := if 0 ≤ q then ⌊q⌋ else ⌈q⌉

/-- A Python value as it appears in a function-call argument map or an
action payload dict (only the shapes the translated code produces). -/
inductive PyValue where
  | int (n : Int)
  | num (q : ℚ)
  | str (s : String)
  | bool (b : Bool)
  | pynone
  | dict (entries : List (String × PyValue))

/-- Python truthiness for the values above. -/
def PyValue.truthy : PyValue → Bool
  | .int n => n ≠ 0
  | .num q => q ≠ 0
  | .str s => s ≠ ""
  | .bool b => b
  | .pynone => false
  | .dict entries => ¬ entries.isEmpty

/-- A Python dict, modelled as an association list keyed by strings. -/
abbrev Args := List (String × PyValue)

/-- Dict lookup (first binding wins, like a Python dict with unique keys). -/
def Args.get? (args : Args) (k : String) : Option PyValue :=
  (args.find? (fun kv => kv.fst = k)).map (·.snd)

/-- Read a key as an integer, if present and integral. -/
def Args.getInt? (args : Args) (k : String) : Option Int :=
  match args.get? k with
  | some (.int n) => some n
  | _ => none

/-- Read a key as a number (int or float), if present and numeric. -/
def Args.getNum? (args : Args) (k : String) : Option ℚ :=
  match args.get? k with
  | some (.int n) => some (n : ℚ)
  | some (.num q) => some q
  | _ => none

/-- Read a key as a string, if present and a string. -/
def Args.getStr? (args : Args) (k : String) : Option String :=
  match args.get? k with
  | some (.str s) => some s
  | _ => none

/-- GoogleMobileCUAClient._clamp_coordinate: max(0, min(1000, value)). -/
def clamp_coordinate (value : Int) : Int :=
  max 0 (min COORDINATE_GRID_SIZE value)

/-! ## Pydantic action models (stagehand/types/agent.py)

Each structure carries exactly the fields the Python model declares,
with the Python defaults.  Note the misspelled field miliseconds on
WaitAction, kept verbatim from the source. -/

structure TapAction where
  x : Int
  y : Int
  duration_ms : Option Int := none
deriving DecidableEq, Repr

structure DoubleTapAction where
  x : Int
  y : Int
deriving DecidableEq, Repr

structure LongPressAction where
  x : Int
  y : Int
  duration_ms : Int := 500
deriving DecidableEq, Repr

structure SwipeAction where
  start_x : Int
  start_y : Int
  end_x : Int
  end_y : Int
  duration_ms : Int := 300
deriving DecidableEq, Repr

structure PinchAction where
  center_x : Int
  center_y : Int
  scale : ℚ
  duration_ms : Int := 300
deriving DecidableEq, Repr

structure WaitAction where
  miliseconds : Option Int := some 0
deriving DecidableEq, Repr

structure TypeTextAction where
  text : String
  x : Option Int := none
  y : Option Int := none
  press_enter_after : Bool := false
deriving DecidableEq, Repr

structure FunctionArguments where
  url : Option String := none
  app_id : Option String := none
deriving DecidableEq, Repr

structure FunctionAction where
  name : String
  arguments : Option FunctionArguments
deriving DecidableEq, Repr

/-- The AgentActionType union, restricted to the variants the mobile
translator can produce. -/
inductive ActionModel where
  | tap (a : TapAction)
  | doubleTap (a : DoubleTapAction)
  | longPress (a : LongPressAction)
  | swipe (a : SwipeAction)
  | pinch (a : PinchAction)
  | wait (a : WaitAction)
  | typeText (a : TypeTextAction)
  | fn (a : FunctionAction)
deriving DecidableEq, Repr

/-- AgentAction: the action_type tag plus the validated model. -/
structure AgentAction where
  action_type : String
  action : ActionModel
deriving DecidableEq, Repr

/-! ## Action mappers (GoogleMobileCUAClient._map_*)

Each mapper turns the raw model arguments into an (action_type, payload)
pair, where the payload is the Python dict the mapper constructs.  A
required key that is missing raises KeyError in Python, which the caller
catches and turns into None; the mappers therefore return Option. -/

def map_tap (args : Args) : Option (String × Args) := do
  let x ← args.getInt? "x"
  let y ← args.getInt? "y"
  pure ("tap",
    [("type", .str "tap"),
     ("x", .int (clamp_coordinate x)),
     ("y", .int (clamp_coordinate y))])

def map_double_tap (args : Args) : Option (String × Args) := do
  let x ← args.getInt? "x"
  let y ← args.getInt? "y"
  pure ("double_tap",
    [("type", .str "double_tap"),
     ("x", .int (clamp_coordinate x)),
     ("y", .int (clamp_coordinate y))])

def map_long_press (args : Args) : Option (String × Args) := do
  let x ← args.getInt? "x"
  let y ← args.getInt? "y"
  let d := (args.getInt? "duration_ms").getD DEFAULT_LONG_PRESS_DURATION_MS
  pure ("long_press",
    [("type", .str "long_press"),
     ("x", .int (clamp_coordinate x)),
     ("y", .int (clamp_coordinate y)),
     ("duration_ms", .int d)])

def map_swipe (args : Args) : Option (String × Args) := do
  let sx ← args.getInt? "start_x"
  let sy ← args.getInt? "start_y"
  let ex ← args.getInt? "end_x"
  let ey ← args.getInt? "end_y"
  let d := (args.getInt? "duration_ms").getD DEFAULT_SWIPE_DURATION_MS
  pure ("swipe",
    [("type", .str "swipe"),
     ("start_x", .int (clamp_coordinate sx)),
     ("start_y", .int (clamp_coordinate sy)),
     ("end_x", .int (clamp_coordinate ex)),
     ("end_y", .int (clamp_coordinate ey)),
     ("duration_ms", .int d)])

def map_type (args : Args) : Option (String × Args) := do
  let x ← args.getInt? "x"
  let y ← args.getInt? "y"
  let t ← args.getStr? "text"
  let pe := match args.get? "press_enter" with
    | some (.bool b) => b
    | _ => false
  pure ("type",
    [("type", .str "type"),
     ("x", .int (clamp_coordinate x)),
     ("y", .int (clamp_coordinate y)),
     ("text", .str t),
     ("press_enter_after", .bool pe)])

def map_go_back (_args : Args) : Option (String × Args) :=
  some ("function",
    [("type", .str "function"), ("name", .str "navigate_back"),
     ("arguments", .pynone)])

def map_go_home (_args : Args) : Option (String × Args) :=
  some ("function",
    [("type", .str "function"), ("name", .str "go_home"),
     ("arguments", .pynone)])

def map_open_app (args : Args) : Option (String × Args) := do
  let app ← args.getStr? "app_name"
  pure ("function",
    [("type", .str "function"), ("name", .str "open_app"),
     ("arguments", .dict [("app_id", .str app)])])

def map_open_url (args : Args) : Option (String × Args) := do
  let url ← args.getStr? "url"
  pure ("function",
    [("type", .str "function"), ("name", .str "goto"),
     ("arguments", .dict [("url", .str url)])])

/-- _map_wait: milliseconds = int(args.get("seconds", 1) * 1000).
Note the payload key is spelled milliseconds, with a double l. -/
def map_wait (args : Args) : Option (String × Args) := do
  let s ← match args.get? "seconds" with
    | none => some (1 : ℚ)
    | some (.int n) => some (n : ℚ)
    | some (.num q) => some q
    | some _ => none
  pure ("wait",
    [("type", .str "wait"),
     ("milliseconds", .int (pyInt (s * 1000)))])

def map_pinch (args : Args) : Option (String × Args) := do
  let cx ← args.getInt? "center_x"
  let cy ← args.getInt? "center_y"
  let sc ← args.getNum? "scale"
  pure ("pinch",
    [("type", .str "pinch"),
     ("center_x", .int (clamp_coordinate cx)),
     ("center_y", .int (clamp_coordinate cy)),
     ("scale", .num sc),
     ("duration_ms", .int DEFAULT_PINCH_DURATION_MS)])

/-- _map_scroll: converts a scroll direction and amount to a swipe payload
anchored at the 500 / 300 / 700 grid reference points.  The computed
coordinates are not clamped. -/
def map_scroll (args : Args) : Option (String × Args) :=
  let direction := (args.getStr? "direction").getD "down"
  let amount := ((args.getInt? "amount").getD 5) * 100
  let center : Int := COORDINATE_GRID_SIZE / 2
  let near_edge : Int := 300
  let far_edge : Int := 700
  let p : Int × Int × Int × Int :=
    if direction = "up" then (center, near_edge, center, near_edge + amount)
    else if direction = "left" then (far_edge, center, far_edge - amount, center)
    else if direction = "right" then (near_edge, center, near_edge + amount, center)
    else (center, far_edge, center, far_edge - amount)
  some ("swipe",
    [("type", .str "swipe"),
     ("start_x", .int p.1),
     ("start_y", .int p.2.1),
     ("end_x", .int p.2.2.1),
     ("end_y", .int p.2.2.2),
     ("duration_ms", .int DEFAULT_SWIPE_DURATION_MS)])

/-- The dispatch table of GoogleMobileCUAClient._action_mappers. -/
def dispatch_mapper (name : String) : Option (Args → Option (String × Args)) :=
  if name = "tap_at" then some map_tap
  else if name = "double_tap_at" then some map_double_tap
  else if name = "long_press_at" then some map_long_press
  else if name = "swipe" then some map_swipe
  else if name = "type_text_at" then some map_type
  else if name = "go_back" then some map_go_back
  else if name = "go_home" then some map_go_home
  else if name = "open_app" then some map_open_app
  else if name = "open_url" then some map_open_url
  else if name = "wait" then some map_wait
  else if name = "pinch" then some map_pinch
  else if name = "scroll" then some map_scroll
  else none

/-! ## Pydantic validation (TypeAdapter(AgentActionType).validate_python)

The union discriminates on the literal type tag; unknown payload keys are
ignored (pydantic default), which is why the milliseconds key written by
map_wait never reaches WaitAction.miliseconds. -/

def validateTap (p : Args) : Option TapAction := do
  let x ← p.getInt? "x"
  let y ← p.getInt? "y"
  let d := match p.get? "duration_ms" with
    | some (.int n) => some n
    | _ => none
  pure { x := x, y := y, duration_ms := d }

def validateDoubleTap (p : Args) : Option DoubleTapAction := do
  let x ← p.getInt? "x"
  let y ← p.getInt? "y"
  pure { x := x, y := y }

def validateLongPress (p : Args) : Option LongPressAction := do
  let x ← p.getInt? "x"
  let y ← p.getInt? "y"
  let d := (p.getInt? "duration_ms").getD 500
  pure { x := x, y := y, duration_ms := d }

def validateSwipe (p : Args) : Option SwipeAction := do
  let sx ← p.getInt? "start_x"
  let sy ← p.getInt? "start_y"
  let ex ← p.getInt? "end_x"
  let ey ← p.getInt? "end_y"
  let d := (p.getInt? "duration_ms").getD 300
  pure { start_x := sx, start_y := sy, end_x := ex, end_y := ey, duration_ms := d }

def validatePinch (p : Args) : Option PinchAction := do
  let cx ← p.getInt? "center_x"
  let cy ← p.getInt? "center_y"
  let sc ← p.getNum? "scale"
  let d := (p.getInt? "duration_ms").getD 300
  pure { center_x := cx, center_y := cy, scale := sc, duration_ms := d }

/-- WaitAction validation: the declared field is miliseconds (single l),
Optional[int] with default 0; an absent key takes the default. -/
def validateWait (p : Args) : Option WaitAction :=
  match p.get? "miliseconds" with
  | none => some { miliseconds := some 0 }
  | some (.int n) => some { miliseconds := some n }
  | some _ => none

def validateTypeText (p : Args) : Option TypeTextAction := do
  let t ← p.getStr? "text"
  let x := p.getInt? "x"
  let y := p.getInt? "y"
  let pe := match p.get? "press_enter_after" with
    | some (.bool b) => b
    | _ => false
  pure { text := t, x := x, y := y, press_enter_after := pe }

def validateFunction (p : Args) : Option FunctionAction := do
  let n ← p.getStr? "name"
  let aopt ← match p.get? "arguments" with
    | some .pynone => some (none : Option FunctionArguments)
    | some (.dict d) =>
        some (some { url := Args.getStr? d "url", app_id := Args.getStr? d "app_id" })
    | _ => none
  pure { name := n, arguments := aopt }

/-- Validate a payload against the AgentActionType union, dispatching on
the literal type tag. -/
def validate_action (p : Args) : Option ActionModel :=
  match p.getStr? "type" with
  | some "tap" => (validateTap p).map .tap
  | some "double_tap" => (validateDoubleTap p).map .doubleTap
  | some "long_press" => (validateLongPress p).map .longPress
  | some "swipe" => (validateSwipe p).map .swipe
  | some "pinch" => (validatePinch p).map .pinch
  | some "wait" => (validateWait p).map .wait
  | some "type" => (validateTypeText p).map .typeText
  | some "function" => (validateFunction p).map .fn
  | _ => none

/-- GoogleMobileCUAClient._map_function_to_action: dispatch to a mapper,
build the payload, validate it; any failure yields None. -/
def map_function_to_action (name : String) (args : Args) : Option AgentAction := do
  let mapper ← dispatch_mapper name
  let (action_type, payload) ← mapper args
  let model ← validate_action payload
  pure { action_type := action_type, action := model }

/-! ## MobileNavigationHandler: coordinate normalizer and gesture synthesis
(stagehand/handlers/mobile_navigation_handler.py).  The Python floats are
evaluated in exact rational arithmetic as explained at the top. -/

/-- normalize_x: int(x / COORDINATE_GRID_SIZE * viewport_width). -/
def normalize_x (x : Int) (viewport_width : Int) : Int :=
  pyInt ((x : ℚ) / (COORDINATE_GRID_SIZE : ℚ) * (viewport_width : ℚ))

/-- normalize_y: int(y / COORDINATE_GRID_SIZE * viewport_height). -/
def normalize_y (y : Int) (viewport_height : Int) : Int :=
  pyInt ((y : ℚ) / (COORDINATE_GRID_SIZE : ℚ) * (viewport_height : ℚ))

/-- _perform_wait: duration_s = (action.miliseconds or 1000) / 1000.
This is the slept duration, expressed in milliseconds. -/
def wait_sleep_ms (a : WaitAction) : Int :=
  match a.miliseconds with
  | none => 1000
  | some m => if m = 0 then 1000 else m

/-- _perform_tap: duration_ms = action.duration_ms or 50. -/
def tap_press_ms (a : TapAction) : Int :=
  match a.duration_ms with
  | none => 50
  | some d => if d = 0 then 50 else d

/-- _perform_swipe: steps = max(int(duration_s * 60), 10) with
duration_s = duration_ms / 1000. -/
def swipe_steps (duration_ms : Int) : Int :=
  max (pyInt ((duration_ms : ℚ) / 1000 * 60)) 10

/-- The i-th interpolated pointer position of _perform_swipe
(i ranges over 1..steps): progress = i / steps and each coordinate is
int(start + (end - start) * progress). -/
def swipe_point (sx sy ex ey : Int) (steps : Int) (i : Nat) : Int × Int :=
  let progress : ℚ := (i : ℚ) / (steps : ℚ)
  (pyInt ((sx : ℚ) + ((ex : ℚ) - (sx : ℚ)) * progress),
   pyInt ((sy : ℚ) + ((ey : ℚ) - (sy : ℚ)) * progress))

/-- The full list of interpolated positions issued by _perform_swipe,
in order, for i = 1..steps. -/
def swipe_points (sx sy ex ey duration_ms : Int) : List (Int × Int) :=
  let steps := swipe_steps duration_ms
  (List.range steps.toNat).map (fun j => swipe_point sx sy ex ey steps (j + 1))

/-- The cumulative pause time (in seconds) after the i-th interpolation
step: each step pauses step_duration = duration_s / steps, so the i-th
position is reached at time i * step_duration. -/
def swipe_timestamps (duration_ms : Int) : List ℚ :=
  let steps := swipe_steps duration_ms
  (List.range steps.toNat).map
    (fun (j : Nat) => ((j : ℚ) + 1) * (((duration_ms : ℚ) / 1000) / (steps : ℚ)))

/-! ## Conversation turns and history trimming
(google_mobile_cua.py: Content handling, _has_error_response, _trim_history). -/

/-- A function call carried by a model turn. -/
structure FunctionCall where
  name : String
  args : Args

/-- A function response part of a feedback turn; response is the dict
passed to FunctionResponse(response=...). -/
structure FunctionResponse where
  name : String
  response : Args

/-- One part of a Content turn: optional text, optional function call,
optional function response. -/
structure ContentPart where
  text : Option String := none
  function_call : Option FunctionCall := none
  function_response : Option FunctionResponse := none

/-- A conversation turn (google.genai Content). -/
structure Content where
  parts : List ContentPart

/-- _has_error_response: some part carries a function response whose
response dict has a truthy error entry. -/
def has_error_response (c : Content) : Bool :=
  c.parts.any (fun p =>
    match p.function_response with
    | some r =>
        match Args.get? r.response "error" with
        | some v => v.truthy
        | none => false
    | none => false)

/-- _trim_history: histories of length at most MAX_HISTORY_LENGTH are kept;
longer histories are rebuilt as first turn, then up to 5 error-carrying
turns of the middle slice history[1 : len - 20], then the last 20 turns. -/
def trim_history (h : List Content) : List Content :=
  if h.length ≤ MAX_HISTORY_LENGTH then h
  else
    h.take 1
      ++ (((h.drop 1).take (h.length - 20 - 1)).filter has_error_response).take 5
      ++ h.drop (h.length - 20)

/-! ## Provider responses (google.genai types) -/

/-- google.genai FinishReason values, with the Python enum member name. -/
inductive FinishReason where
  | unspecified
  | stop
  | maxTokens
  | safety
  | recitation
  | toolCode
  | malformedFunctionCall
deriving DecidableEq

/-- The .name attribute of the Python enum member. -/
def FinishReason.enum_label : FinishReason → String
  | .unspecified => "FINISH_REASON_UNSPECIFIED"
  | .stop => "STOP"
  | .maxTokens => "MAX_TOKENS"
  | .safety => "SAFETY"
  | .recitation => "RECITATION"
  | .toolCode => "TOOL_CODE"
  | .malformedFunctionCall => "MALFORMED_FUNCTION_CALL"

structure Candidate where
  content : Content
  finish_reason : FinishReason

structure GenerateContentResponse where
  candidates : List Candidate

/-- Result tuple of _process_provider_response:
(actions, reasoning, task_completed, final_message, function_info). -/
structure ProcessResult where
  actions : List AgentAction
  reasoning : Option String
  task_completed : Bool
  final_message : Option String
  function_info : List (String × Args)

/-- Accumulate reasoning text across parts exactly as the Python loop
does: falsy (empty) texts are skipped, later texts are appended with a
separating space. -/
def extract_reasoning (parts : List ContentPart) : Option String :=
  parts.foldl
    (fun r p =>
      match p.text with
      | some t =>
          if t = "" then r
          else match r with
            | none => some t
            | some r0 => some (r0 ++ " " ++ t)
      | none => r)
    none

/-- Collect the function calls of the candidate parts, in order. -/
def extract_function_calls (parts : List ContentPart) : List FunctionCall :=
  parts.filterMap (·.function_call)

/-- _process_provider_response.  The branches appear in source order:
no candidates, malformed-function-call soft retry, abnormal finish
reason, no function calls (completion), otherwise translated actions.
The appending of the candidate content to the history is bookkeeping
that does not influence the returned tuple and is not modelled. -/
def process_provider_response (resp : GenerateContentResponse) : ProcessResult :=
  match resp.candidates with
  | [] =>
      { actions := [], reasoning := some "No response from model",
        task_completed := true, final_message := some "Error: No candidates",
        function_info := [] }
  | candidate :: _ =>
      let reasoning := extract_reasoning candidate.content.parts
      let fcs := extract_function_calls candidate.content.parts
      if fcs.isEmpty ∧ reasoning = none ∧
          candidate.finish_reason = .malformedFunctionCall then
        { actions := [], reasoning := reasoning, task_completed := false,
          final_message := none, function_info := [] }
      else if candidate.finish_reason ≠ .unspecified ∧
          candidate.finish_reason ≠ .stop ∧
          candidate.finish_reason ≠ .toolCode then
        { actions := [], reasoning := reasoning, task_completed := true,
          final_message := some ("Stopped: " ++ candidate.finish_reason.enum_label),
          function_info := [] }
      else if fcs.isEmpty then
        { actions := [], reasoning := reasoning, task_completed := true,
          final_message := some (reasoning.getD "No actions from model"),
          function_info := [] }
      else
        { actions := fcs.filterMap (fun fc => map_function_to_action fc.name fc.args),
          reasoning := reasoning, task_completed := false,
          final_message := none,
          function_info := fcs.map (fun fc => (fc.name, fc.args)) }

/-! ## The run_task step loop (GoogleMobileCUAClient.run_task)

The model is an arbitrary function from (step index, attempt index) to
either a raised transport error (Except.error) or a provider response
(Except.ok); this quantifies over every possible model behaviour,
including whatever the fed-back conversation history would have induced.
Wall-clock timing, token usage accounting and the screenshot payloads do
not influence control flow and are not modelled; the observable side
effects that the claims speak about are recorded as an event trace. -/

/-- Observable events of one run_task invocation: a model call attempt,
an exponential-backoff sleep (seconds), an executed action, a feedback
turn sent back to the model. -/
inductive Event where
  | api_call (attempt : Nat)
  | backoff (delay : ℚ)
  | exec_action (name : String)
  | feedback (name : String)
deriving DecidableEq

/-- AgentResult as run_task constructs it (actions taken, message,
completed flag; the usage counters are timing bookkeeping only). -/
structure AgentResult where
  actions : List ActionModel
  message : String
  completed : Bool
deriving DecidableEq

/-- Python falsy-or on an optional string: None and the empty string fall
back to the default. -/
def string_or (o : Option String) (d : String) : String :=
  match o with
  | none => d
  | some s => if s = "" then d else s

/-- The inner retry loop of run_task, starting at a given attempt number
with the given number of attempts remaining.  On failure with attempts
left it sleeps RETRY_BASE_DELAY_S * 2 ^ attempt and retries; the returned
triple is (events, response, last raised error). -/
def run_attempts_from (call : Nat → Except String GenerateContentResponse) :
    Nat → Nat → List Event × Option GenerateContentResponse × Option String
  | _, 0 => ([], none, none)
  | attempt, fuel + 1 =>
      match call attempt with
      | .ok r => ([.api_call attempt], some r, none)
      | .error e =>
          if fuel = 0 then
            ([.api_call attempt], none, some e)
          else
            let rest := run_attempts_from call (attempt + 1) fuel
            (Event.api_call attempt ::
               Event.backoff (RETRY_BASE_DELAY_S * 2 ^ attempt) :: rest.1,
             rest.2.1, rest.2.2)

/-- The retry loop as run_task enters it: attempt 0, MAX_API_RETRIES
attempts available. -/
def run_attempts (call : Nat → Except String GenerateContentResponse) :
    List Event × Option GenerateContentResponse × Option String :=
  run_attempts_from call 0 MAX_API_RETRIES

/-- One-step action execution events: for each translated action the loop
executes it and then sends one feedback turn, taking the function name
from function_info at the same index. -/
def step_exec_events (pr : ProcessResult) : List Event :=
  (List.range pr.actions.length).flatMap (fun idx =>
    let nm := ((pr.function_info.get? idx).map Prod.fst).getD ""
    [Event.exec_action nm, Event.feedback nm])

/-- The step loop of run_task, with the remaining step budget as fuel
(the Python loop is for step in range(max_steps)). -/
def run_task_loop (call : Nat → Nat → Except String GenerateContentResponse)
    (step : Nat) (acc : List ActionModel) :
    Nat → AgentResult × List Event
  | 0 => ({ actions := acc, message := "Max steps reached", completed := false }, [])
  | fuel + 1 =>
      let att := run_attempts (call step)
      match att.2.1 with
      | none =>
          ({ actions := acc,
             message := "API error after " ++ toString MAX_API_RETRIES
               ++ " retries: " ++ att.2.2.getD "None",
             completed := false }, att.1)
      | some resp =>
          let pr := process_provider_response resp
          let acc2 := acc ++ pr.actions.map (·.action)
          if pr.task_completed then
            ({ actions := acc2,
               message := string_or pr.final_message "Task completed",
               completed := true }, att.1 ++ step_exec_events pr)
          else if pr.actions.isEmpty then
            ({ actions := acc2,
               message := string_or pr.final_message "No further actions",
               completed := false }, att.1 ++ step_exec_events pr)
          else
            let rest := run_task_loop call (step + 1) acc2 fuel
            (rest.1, att.1 ++ step_exec_events pr ++ rest.2)

/-- run_task with the handler present: returns the final AgentResult and
the trace of observable events.  It is a total function: no code path
raises. -/
def run_task (call : Nat → Nat → Except String GenerateContentResponse)
    (max_steps : Nat) : AgentResult × List Event :=
  run_task_loop call 0 [] max_steps

/-- Number of model call attempts in a trace. -/
def count_api_calls (evs : List Event) : Nat :=
  (evs.filter (fun e => match e with | .api_call _ => true | _ => false)).length

/-- Number of feedback turns in a trace. -/
def count_feedback (evs : List Event) : Nat :=
  (evs.filter (fun e => match e with | .feedback _ => true | _ => false)).length

/-! ## Helper lemmas -/

theorem pyInt_intCast (n : Int) : pyInt (n : ℚ) = n := by
  rw [pyInt]
  split
  · exact Int.floor_intCast n
  · exact Int.ceil_intCast n

theorem pyInt_between {m M : Int} {q : ℚ} (h1 : (m : ℚ) ≤ q) (h2 : q ≤ (M : ℚ)) :
    m ≤ pyInt q ∧ pyInt q ≤ M := by
  rw [pyInt]
  split
  · exact ⟨Int.le_floor.mpr h1, by
      calc ⌊q⌋ ≤ ⌊(M : ℚ)⌋ := Int.floor_le_floor h2
      _ = M := Int.floor_intCast M⟩
  · exact ⟨by
      calc (m : Int) = ⌈(m : ℚ)⌉ := (Int.ceil_intCast m).symm
      _ ≤ ⌈q⌉ := Int.ceil_le_ceil h1,
      Int.ceil_le.mpr h2⟩

theorem seg_between (a b : Int) (t : ℚ) (h0 : 0 ≤ t) (h1 : t ≤ 1) :
    ((min a b : Int) : ℚ) ≤ (a : ℚ) + ((b : ℚ) - a) * t ∧
      (a : ℚ) + ((b : ℚ) - a) * t ≤ ((max a b : Int) : ℚ) := by
  rcases le_total a b with hab | hab
  · rw [min_eq_left hab, max_eq_right hab]
    have hab' : (a : ℚ) ≤ (b : ℚ) := by exact_mod_cast hab
    constructor <;> nlinarith
  · rw [min_eq_right hab, max_eq_left hab]
    have hab' : (b : ℚ) ≤ (a : ℚ) := by exact_mod_cast hab
    constructor <;> nlinarith

theorem clamp_coordinate_bounds (v : Int) :
    0 ≤ clamp_coordinate v ∧ clamp_coordinate v ≤ 1000 := by
  rw [clamp_coordinate, COORDINATE_GRID_SIZE]
  omega

/-! ## Claim theorems -/

/-- Claim C5 (code bug): the coordinate normalizer does not clamp.  On a
393-pixel-wide viewport, the in-range boundary values behave as the claim
says (normalize(0) = 0, normalize(1000) = 393 = v), but out-of-range
inputs are linearly extrapolated instead of clamped: normalize(1500) =
589 differs from normalize(1000) = 393, and normalize(-100) = -39 differs
from normalize(0) = 0.  The repository tests
(test_normalize_clamps_negative, test_normalize_clamps_overflow) require
clamping, so the code contradicts its own tests. -/
theorem normalize_does_not_clamp_eval :
    normalize_x 0 393 = 0 ∧
    normalize_x 1000 393 = 393 ∧
    normalize_x 1500 393 = 589 ∧
    normalize_x (-100) 393 = -39 ∧
    normalize_x 1500 393 ≠ normalize_x 1000 393 ∧
    normalize_x (-100) 393 ≠ normalize_x 0 393 := by
  have e0 : normalize_x 0 393 = 0 := by
    rw [normalize_x, COORDINATE_GRID_SIZE, pyInt]
    norm_num
  have e1 : normalize_x 1000 393 = 393 := by
    rw [normalize_x, COORDINATE_GRID_SIZE, pyInt]
    norm_num
  have e2 : normalize_x 1500 393 = 589 := by
    rw [normalize_x, COORDINATE_GRID_SIZE, pyInt]
    norm_num
  have e3 : normalize_x (-100) 393 = -39 := by
    rw [normalize_x, COORDINATE_GRID_SIZE, pyInt, if_neg]
    · rw [Int.ceil_eq_iff]
      constructor <;> (push_cast; norm_num)
    · push_cast
      norm_num
  refine ⟨e0, e1, e2, e3, ?_, ?_⟩
  · rw [e1, e2]; decide
  · rw [e0, e3]; decide

/-- Claim C3 (code bug): the translator converts wait(seconds=5) into a
payload carrying milliseconds = 5000, but the WaitAction schema declares
the misspelled field miliseconds (default 0), so validation silently drops
the translated duration; the executor then replaces the 0 with 1000 ms,
and the executed sleep is 1000 ms instead of the requested 5000 ms. -/
theorem wait_duration_dropped_eval :
    map_wait [("seconds", PyValue.num 5)] =
      some ("wait", [("type", .str "wait"), ("milliseconds", .int 5000)]) ∧
    map_function_to_action "wait" [("seconds", PyValue.num 5)] =
      some { action_type := "wait", action := .wait { miliseconds := some 0 } } ∧
    wait_sleep_ms { miliseconds := some 0 } = 1000 ∧
    (1000 : Int) ≠ 5 * 1000 := by
  refine ⟨?_, rfl, rfl, by decide⟩
  have : pyInt ((5 : ℚ) * 1000) = 5000 := by
    rw [pyInt]
    norm_num
  simp [map_wait, Args.get?, List.find?, this]

/-- Claim C4, counterexample: a scroll with amount 8 (within the 1..10
range the tool schema documents) translates to a swipe whose end_y is
-100, outside the 0-1000 grid; the scroll mapper never clamps. -/
theorem scroll_swipe_out_of_grid_amount8 :
    map_function_to_action "scroll" [("direction", .str "down"), ("amount", .int 8)] =
      some { action_type := "swipe", action := (ActionModel.swipe
        { start_x := 500, start_y := 700, end_x := 500, end_y := -100,
          duration_ms := 300 }) } ∧
    ((-100 : Int) < 0) := ⟨rfl, by decide⟩

/-- Claim C4, amended: for scroll amounts from 1 to 7 (which include the
default 5) every coordinate of the translated swipe lies in the 0-1000
grid; the swipe is anchored at the 500 / 300 / 70 percent reference
points, and a scroll down starts low on screen (start_y = 700) and ends
higher (end_y = 700 - 100 * amount < start_y).  For amounts of 8 or more
the coordinates leave the grid, as the counterexample shows. -/
theorem scroll_swipe_in_grid_small_amount (a : Int) (h1 : 1 ≤ a) (h7 : a ≤ 7) :
    map_function_to_action "scroll" [("direction", .str "down"), ("amount", .int a)] =
      some { action_type := "swipe", action := (ActionModel.swipe
        { start_x := 500, start_y := 700, end_x := 500, end_y := 700 - a * 100,
          duration_ms := 300 }) } ∧
    map_function_to_action "scroll" [("direction", .str "up"), ("amount", .int a)] =
      some { action_type := "swipe", action := (ActionModel.swipe
        { start_x := 500, start_y := 300, end_x := 500, end_y := 300 + a * 100,
          duration_ms := 300 }) } ∧
    map_function_to_action "scroll" [("direction", .str "left"), ("amount", .int a)] =
      some { action_type := "swipe", action := (ActionModel.swipe
        { start_x := 700, start_y := 500, end_x := 700 - a * 100, end_y := 500,
          duration_ms := 300 }) } ∧
    map_function_to_action "scroll" [("direction", .str "right"), ("amount", .int a)] =
      some { action_type := "swipe", action := (ActionModel.swipe
        { start_x := 300, start_y := 500, end_x := 300 + a * 100, end_y := 500,
          duration_ms := 300 }) } ∧
    (0 ≤ 700 - a * 100 ∧ 700 - a * 100 ≤ 1000) ∧
    (0 ≤ 300 + a * 100 ∧ 300 + a * 100 ≤ 1000) ∧
    700 - a * 100 < 700 := by
  refine ⟨rfl, rfl, rfl, rfl, by omega, by omega, by omega⟩

/-- Witness for scroll_swipe_in_grid_small_amount at the default amount. -/
theorem scroll_swipe_in_grid_small_amount_witness :
    (1 : Int) ≤ 5 ∧ (5 : Int) ≤ 7 ∧
    (map_function_to_action "scroll" [("direction", .str "down"), ("amount", .int 5)] =
      some { action_type := "swipe", action := (ActionModel.swipe
        { start_x := 500, start_y := 700, end_x := 500, end_y := 700 - 5 * 100,
          duration_ms := 300 }) } ∧
    map_function_to_action "scroll" [("direction", .str "up"), ("amount", .int 5)] =
      some { action_type := "swipe", action := (ActionModel.swipe
        { start_x := 500, start_y := 300, end_x := 500, end_y := 300 + 5 * 100,
          duration_ms := 300 }) } ∧
    map_function_to_action "scroll" [("direction", .str "left"), ("amount", .int 5)] =
      some { action_type := "swipe", action := (ActionModel.swipe
        { start_x := 700, start_y := 500, end_x := 700 - 5 * 100, end_y := 500,
          duration_ms := 300 }) } ∧
    map_function_to_action "scroll" [("direction", .str "right"), ("amount", .int 5)] =
      some { action_type := "swipe", action := (ActionModel.swipe
        { start_x := 300, start_y := 500, end_x := 300 + 5 * 100, end_y := 500,
          duration_ms := 300 }) } ∧
    ((0 : Int) ≤ 700 - 5 * 100 ∧ (700 : Int) - 5 * 100 ≤ 1000) ∧
    ((0 : Int) ≤ 300 + 5 * 100 ∧ (300 : Int) + 5 * 100 ≤ 1000) ∧
    (700 : Int) - 5 * 100 < 700) :=
  ⟨by decide, by decide, scroll_swipe_in_grid_small_amount 5 (by decide) (by decide)⟩

/-- Claim C6, counterexample: the translated tap action carries no
duration at all (duration_ms = None); the ~50 ms tap default is not
supplied by the translator. -/
theorem tap_translation_has_no_duration :
    map_function_to_action "tap_at" [("x", PyValue.int 500), ("y", PyValue.int 500)] =
      some { action_type := "tap",
             action := (ActionModel.tap { x := 500, y := 500, duration_ms := none }) } ∧
    (none : Option Int) ≠ some 50 := ⟨rfl, by decide⟩

/-- Claim C6, amended: the translator clamps every coordinate argument to
the 0-1000 grid before embedding it — for tap_at, double_tap_at,
long_press_at, swipe, type_text_at and pinch, the six coordinate-bearing
calls — and supplies the documented defaults for the long-press (500 ms),
swipe (300 ms) and pinch (300 ms) durations when the model omits them;
the tap default of 50 ms is supplied by the executor
(action.duration_ms or 50), not by the translator, which leaves the tap
duration unset. -/
theorem translator_clamp_and_duration_defaults
    (x y sx sy ex ey cx cy : Int) (sc : ℚ) (txt : String) :
    (∀ v : Int, 0 ≤ clamp_coordinate v ∧ clamp_coordinate v ≤ 1000) ∧
    map_function_to_action "tap_at" [("x", .int x), ("y", .int y)] =
      some { action_type := "tap",
             action := (ActionModel.tap
               { x := clamp_coordinate x, y := clamp_coordinate y,
                 duration_ms := none }) } ∧
    tap_press_ms { x := clamp_coordinate x, y := clamp_coordinate y,
                   duration_ms := none } = 50 ∧
    map_function_to_action "double_tap_at" [("x", .int x), ("y", .int y)] =
      some { action_type := "double_tap",
             action := (ActionModel.doubleTap
               { x := clamp_coordinate x, y := clamp_coordinate y }) } ∧
    map_function_to_action "long_press_at" [("x", .int x), ("y", .int y)] =
      some { action_type := "long_press",
             action := (ActionModel.longPress
               { x := clamp_coordinate x, y := clamp_coordinate y,
                 duration_ms := 500 }) } ∧
    map_function_to_action "swipe"
        [("start_x", .int sx), ("start_y", .int sy),
         ("end_x", .int ex), ("end_y", .int ey)] =
      some { action_type := "swipe",
             action := (ActionModel.swipe
               { start_x := clamp_coordinate sx, start_y := clamp_coordinate sy,
                 end_x := clamp_coordinate ex, end_y := clamp_coordinate ey,
                 duration_ms := 300 }) } ∧
    map_function_to_action "type_text_at"
        [("x", .int x), ("y", .int y), ("text", .str txt)] =
      some { action_type := "type",
             action := (ActionModel.typeText
               { text := txt, x := some (clamp_coordinate x),
                 y := some (clamp_coordinate y),
                 press_enter_after := false }) } ∧
    map_function_to_action "pinch"
        [("center_x", .int cx), ("center_y", .int cy), ("scale", .num sc)] =
      some { action_type := "pinch",
             action := (ActionModel.pinch
               { center_x := clamp_coordinate cx, center_y := clamp_coordinate cy,
                 scale := sc, duration_ms := 300 }) } :=
  ⟨clamp_coordinate_bounds, rfl, rfl, rfl, rfl, rfl, rfl, rfl⟩

/-- Claim C7: histories of length at most 50 are left unchanged; longer
histories are rebuilt as the first turn, then at most 5 error-carrying
turns taken from the middle region history[1 : len - 20], then the most
recent 20 turns unchanged and in order, for a total length of at most
1 + 5 + 20 = 26. -/
theorem trim_history_retention (h : List Content) :
    (h.length ≤ 50 → trim_history h = h) ∧
    (50 < h.length →
      ∃ errs : List Content,
        trim_history h = h.take 1 ++ errs ++ h.drop (h.length - 20) ∧
        errs.length ≤ 5 ∧
        (∀ c ∈ errs, has_error_response c = true ∧
          c ∈ (h.drop 1).take (h.length - 20 - 1)) ∧
        (trim_history h).length ≤ 26 ∧
        (trim_history h).take 1 = h.take 1 ∧
        (trim_history h).drop ((trim_history h).length - 20) =
          h.drop (h.length - 20)) := by
  constructor
  · intro hle
    rw [trim_history, if_pos]
    rwa [MAX_HISTORY_LENGTH]
  · intro hgt
    have hne : ¬ h.length ≤ MAX_HISTORY_LENGTH := by
      rw [MAX_HISTORY_LENGTH]; omega
    have htrim : trim_history h =
        h.take 1
          ++ (((h.drop 1).take (h.length - 20 - 1)).filter has_error_response).take 5
          ++ h.drop (h.length - 20) := by
      rw [trim_history, if_neg hne]
    have hsuf : (h.drop (h.length - 20)).length = 20 := by
      rw [List.length_drop]; omega
    have hfirst : (h.take 1).length = 1 := by
      rw [List.length_take]; omega
    refine ⟨_, htrim, ?_, ?_, ?_, ?_, ?_⟩
    · exact List.length_take_le 5 _
    · intro c hc
      have hc' := List.take_subset 5 _ hc
      rw [List.mem_filter] at hc'
      exact ⟨hc'.2, hc'.1⟩
    · rw [htrim]
      simp only [List.length_append, List.length_take, List.length_drop]
      omega
    · rw [htrim]
      have h1 : (1 : ℕ) ≤ (h.take 1
          ++ (((h.drop 1).take (h.length - 20 - 1)).filter
                has_error_response).take 5).length := by
        rw [List.length_append, hfirst]
        omega
      rw [List.take_append_of_le_length h1,
        List.take_append_of_le_length (le_of_eq hfirst.symm), List.take_take]
      norm_num
    · rw [htrim, List.length_append, hsuf, Nat.add_sub_cancel, List.drop_left]

/-- Witness for trim_history_retention on a concrete 51-turn history. -/
theorem trim_history_retention_witness :
    50 < (List.replicate 51 (⟨[]⟩ : Content)).length ∧
    (∃ errs : List Content,
      trim_history (List.replicate 51 (⟨[]⟩ : Content)) =
        (List.replicate 51 (⟨[]⟩ : Content)).take 1 ++ errs
          ++ (List.replicate 51 (⟨[]⟩ : Content)).drop
              ((List.replicate 51 (⟨[]⟩ : Content)).length - 20) ∧
      errs.length ≤ 5 ∧
      (∀ c ∈ errs, has_error_response c = true ∧
        c ∈ ((List.replicate 51 (⟨[]⟩ : Content)).drop 1).take
              ((List.replicate 51 (⟨[]⟩ : Content)).length - 20 - 1)) ∧
      (trim_history (List.replicate 51 (⟨[]⟩ : Content))).length ≤ 26 ∧
      (trim_history (List.replicate 51 (⟨[]⟩ : Content))).take 1 =
        (List.replicate 51 (⟨[]⟩ : Content)).take 1 ∧
      (trim_history (List.replicate 51 (⟨[]⟩ : Content))).drop
          ((trim_history (List.replicate 51 (⟨[]⟩ : Content))).length - 20) =
        (List.replicate 51 (⟨[]⟩ : Content)).drop
          ((List.replicate 51 (⟨[]⟩ : Content)).length - 20)) :=
  ⟨by simp, (trim_history_retention (List.replicate 51 ⟨[]⟩)).2 (by simp)⟩

/-- Strict monotonicity of the affine timestamp sequence (i+1) * c. -/
theorem pairwise_lt_map_range (n : Nat) (c : ℚ) (hc : 0 < c) :
    ((List.range n).map (fun (j : Nat) => ((j : ℚ) + 1) * c)).Pairwise (· < ·) := by
  refine List.pairwise_map.mpr ((List.pairwise_lt_range n).imp ?_)
  intro a b hab
  have hab' : ((a : ℚ) + 1) < ((b : ℚ) + 1) := by
    have : (a : ℚ) < (b : ℚ) := by exact_mod_cast hab
    linarith
  exact mul_lt_mul_of_pos_right hab' hc

/-- Consecutive elements of the affine timestamp sequence differ by c. -/
theorem spacing_map_range (n : Nat) (c : ℚ) (j : Nat) (hj : j + 1 < n) :
    ((List.range n).map (fun (i : Nat) => ((i : ℚ) + 1) * c))[j + 1]?.getD 0
      - ((List.range n).map (fun (i : Nat) => ((i : ℚ) + 1) * c))[j]?.getD 0 = c := by
  rw [List.getElem?_map, List.getElem?_map, List.getElem?_range hj,
    List.getElem?_range (by omega : j < n)]
  simp only [Option.map_some', Option.getD_some]
  push_cast
  ring

/-- A point lies exactly on the straight segment between two endpoints. -/
def on_segment (sx sy ex ey px py : Int) : Prop :=
  ∃ t : ℚ, 0 ≤ t ∧ t ≤ 1 ∧
    (px : ℚ) = (sx : ℚ) + ((ex : ℚ) - (sx : ℚ)) * t ∧
    (py : ℚ) = (sy : ℚ) + ((ey : ℚ) - (sy : ℚ)) * t

/-- Claim C9, counterexample: for the swipe from (0,0) to (1,2) over
300 ms (18 steps), the generated intermediate point at step 9 is (0,1),
which does not lie on the straight segment (the interpolated coordinates
are truncated to integers independently); further, for duration 0 the
pause spacing is 0 and the timestamps are not strictly increasing. -/
theorem swipe_point_off_segment :
    swipe_steps 300 = 18 ∧
    (swipe_points 0 0 1 2 300)[8]? = some (0, 1) ∧
    ¬ on_segment 0 0 1 2 0 1 ∧
    ¬ (swipe_timestamps 0).Pairwise (· < ·) := by
  have h18 : swipe_steps 300 = 18 := by
    rw [swipe_steps, pyInt]
    norm_num
  have h10 : swipe_steps 0 = 10 := by
    rw [swipe_steps, pyInt]
    norm_num
  refine ⟨h18, ?_, ?_, ?_⟩
  · rw [swipe_points, h18]
    rw [List.getElem?_map]
    norm_num [swipe_point, pyInt]
  · rintro ⟨t, h0, h1, hx, hy⟩
    push_cast at hx hy
    have ht0 : t = 0 := by linarith
    rw [ht0] at hy
    norm_num at hy
  · have hrepl : swipe_timestamps 0 = List.replicate 10 0 := by
      rw [swipe_timestamps, h10]
      norm_num
      rfl
    rw [hrepl]
    intro hp
    rw [List.pairwise_replicate] at hp
    norm_num at hp

/-- Claim C9, amended: the synthesized swipe generates
max(floor(d/1000 * 60), 10) steps; every generated point is the
coordinatewise integer truncation of a point on the straight segment
between the endpoints (hence each coordinate stays between the endpoint
coordinates), the final generated position is exactly the end point, and
for positive duration the timestamps are strictly increasing with equal
spacing (d/1000)/steps seconds.  Exact collinearity fails in general
because the two coordinates are truncated independently, and strict
timestamp growth fails for d = 0, as the counterexample shows. -/
theorem swipe_interpolation_truncated_segment (sx sy ex ey d : Int) (hd : 0 < d) :
    swipe_steps d = max ⌊(d : ℚ) / 1000 * 60⌋ 10 ∧
    10 ≤ swipe_steps d ∧
    (swipe_points sx sy ex ey d).length = (swipe_steps d).toNat ∧
    (∀ p ∈ swipe_points sx sy ex ey d,
      ∃ t : ℚ, 0 ≤ t ∧ t ≤ 1 ∧
        p.1 = pyInt ((sx : ℚ) + ((ex : ℚ) - (sx : ℚ)) * t) ∧
        p.2 = pyInt ((sy : ℚ) + ((ey : ℚ) - (sy : ℚ)) * t) ∧
        min sx ex ≤ p.1 ∧ p.1 ≤ max sx ex ∧
        min sy ey ≤ p.2 ∧ p.2 ≤ max sy ey) ∧
    (swipe_points sx sy ex ey d).getLast? = some (ex, ey) ∧
    (swipe_timestamps d).Pairwise (· < ·) ∧
    (∀ j : Nat, j + 1 < (swipe_steps d).toNat →
      (swipe_timestamps d)[j + 1]?.getD 0 - (swipe_timestamps d)[j]?.getD 0 =
        ((d : ℚ) / 1000) / ((swipe_steps d : Int) : ℚ)) := by
  have hdQ : (0 : ℚ) < (d : ℚ) := by exact_mod_cast hd
  have hsteps10 : (10 : Int) ≤ swipe_steps d := le_max_right _ _
  have hsteps_pos : (0 : Int) < swipe_steps d := by omega
  have hstepsQ : (0 : ℚ) < ((swipe_steps d : Int) : ℚ) := by exact_mod_cast hsteps_pos
  have hformula : swipe_steps d = max ⌊(d : ℚ) / 1000 * 60⌋ 10 := by
    rw [swipe_steps, pyInt, if_pos]
    exact mul_nonneg (div_nonneg hdQ.le (by norm_num)) (by norm_num)
  refine ⟨hformula, hsteps10, by simp [swipe_points], ?_, ?_, ?_, ?_⟩
  · intro p hp
    rw [swipe_points, List.mem_map] at hp
    obtain ⟨j, hj, hpe⟩ := hp
    rw [List.mem_range] at hj
    have hj1 : (((j + 1 : Nat) : ℚ)) ≤ ((swipe_steps d : Int) : ℚ) := by
      have hle : (j + 1 : Nat) ≤ (swipe_steps d).toNat := hj
      calc (((j + 1 : Nat) : ℚ)) ≤ (((swipe_steps d).toNat : Nat) : ℚ) := by
            exact_mod_cast hle
      _ = ((swipe_steps d : Int) : ℚ) := by
            rw [← Int.toNat_of_nonneg hsteps_pos.le]
            push_cast
            rfl
    have ht0 : (0 : ℚ) ≤ ((j + 1 : Nat) : ℚ) / ((swipe_steps d : Int) : ℚ) :=
      div_nonneg (by positivity) hstepsQ.le
    have ht1 : ((j + 1 : Nat) : ℚ) / ((swipe_steps d : Int) : ℚ) ≤ 1 :=
      (div_le_one hstepsQ).mpr hj1
    have hbx := pyInt_between
      (seg_between sx ex _ ht0 ht1).1 (seg_between sx ex _ ht0 ht1).2
    have hby := pyInt_between
      (seg_between sy ey _ ht0 ht1).1 (seg_between sy ey _ ht0 ht1).2
    exact ⟨((j + 1 : Nat) : ℚ) / ((swipe_steps d : Int) : ℚ), ht0, ht1,
      by rw [← hpe]; rfl, by rw [← hpe]; rfl,
      by rw [← hpe]; exact hbx.1, by rw [← hpe]; exact hbx.2,
      by rw [← hpe]; exact hby.1, by rw [← hpe]; exact hby.2⟩
  · obtain ⟨m, hm⟩ : ∃ m, (swipe_steps d).toNat = m + 1 :=
      ⟨(swipe_steps d).toNat - 1, by omega⟩
    rw [swipe_points, hm, List.range_succ, List.map_append, List.map_cons,
      List.map_nil, List.getLast?_concat]
    have hprog : (((m + 1 : Nat)) : ℚ) / ((swipe_steps d : Int) : ℚ) = 1 := by
      have hcast : (((m + 1 : Nat)) : ℚ) = ((swipe_steps d : Int) : ℚ) := by
        rw [← hm, ← Int.toNat_of_nonneg hsteps_pos.le]
        push_cast
        rfl
      rw [hcast]
      exact div_self hstepsQ.ne'
    rw [swipe_point]
    simp only [hprog]
    rw [show (sx : ℚ) + ((ex : ℚ) - (sx : ℚ)) * 1 = (ex : ℚ) by ring,
      show (sy : ℚ) + ((ey : ℚ) - (sy : ℚ)) * 1 = (ey : ℚ) by ring,
      pyInt_intCast, pyInt_intCast]
  · rw [swipe_timestamps]
    exact pairwise_lt_map_range _ _ (div_pos (div_pos hdQ (by norm_num)) hstepsQ)
  · intro j hj
    rw [swipe_timestamps]
    exact spacing_map_range _ _ j hj

/-- Witness for swipe_interpolation_truncated_segment: the swipe of the
counterexample geometry with the default 300 ms duration. -/
theorem swipe_interpolation_truncated_segment_witness :
    (0 : Int) < 300 ∧
    (swipe_steps 300 = max ⌊((300 : Int) : ℚ) / 1000 * 60⌋ 10 ∧
    10 ≤ swipe_steps 300 ∧
    (swipe_points 0 0 1 2 300).length = (swipe_steps 300).toNat ∧
    (∀ p ∈ swipe_points 0 0 1 2 300,
      ∃ t : ℚ, 0 ≤ t ∧ t ≤ 1 ∧
        p.1 = pyInt (((0 : Int) : ℚ) + (((1 : Int) : ℚ) - ((0 : Int) : ℚ)) * t) ∧
        p.2 = pyInt (((0 : Int) : ℚ) + (((2 : Int) : ℚ) - ((0 : Int) : ℚ)) * t) ∧
        min (0 : Int) 1 ≤ p.1 ∧ p.1 ≤ max (0 : Int) 1 ∧
        min (0 : Int) 2 ≤ p.2 ∧ p.2 ≤ max (0 : Int) 2) ∧
    (swipe_points 0 0 1 2 300).getLast? = some (1, 2) ∧
    (swipe_timestamps 300).Pairwise (· < ·) ∧
    (∀ j : Nat, j + 1 < (swipe_steps 300).toNat →
      (swipe_timestamps 300)[j + 1]?.getD 0 - (swipe_timestamps 300)[j]?.getD 0 =
        (((300 : Int) : ℚ) / 1000) / ((swipe_steps 300 : Int) : ℚ))) :=
  ⟨by decide, swipe_interpolation_truncated_segment 0 0 1 2 300 (by decide)⟩

/-- Claim C1, counterexample: a response with no candidates (and likewise
an abnormal MAX_TOKENS finish) makes run_task return an AgentResult whose
message names the cause but whose completed flag is true, not false. -/
theorem no_candidates_result_completed_true :
    (run_task (fun _ _ => Except.ok ⟨[]⟩) 5).1 =
      { actions := [], message := "Error: No candidates", completed := true } ∧
    (run_task (fun _ _ =>
        Except.ok ⟨[{ content := ⟨[]⟩, finish_reason := .maxTokens }]⟩) 5).1 =
      { actions := [], message := "Stopped: MAX_TOKENS", completed := true } :=
  ⟨rfl, rfl⟩

/-- Claim C1, amended: for a response with no candidates, and for a
response whose finish reason is abnormal (not STOP, not UNSPECIFIED, not
TOOL_CODE, and excluding the empty malformed-function-call soft-retry
case), run_task terminates the task immediately with a message naming
the cause; however the returned completed flag is true, because run_task
reports the parser terminal flag as the completed flag. -/
theorem terminal_stop_reports_completed_true
    (resp0 : GenerateContentResponse) (hr0 : resp0.candidates = [])
    (parts : List ContentPart) (fr : FinishReason) (rest : List Candidate)
    (h1 : fr ≠ .unspecified) (h2 : fr ≠ .stop) (h3 : fr ≠ .toolCode)
    (h4 : extract_function_calls parts ≠ [] ∨ extract_reasoning parts ≠ none ∨
      fr ≠ .malformedFunctionCall)
    (call0 call1 : Nat → Nat → Except String GenerateContentResponse)
    (n : Nat) (hn : 0 < n)
    (hc0 : call0 0 0 = Except.ok resp0)
    (hc1 : call1 0 0 =
      Except.ok ⟨{ content := ⟨parts⟩, finish_reason := fr } :: rest⟩) :
    process_provider_response resp0 =
      { actions := [], reasoning := some "No response from model",
        task_completed := true, final_message := some "Error: No candidates",
        function_info := [] } ∧
    (run_task call0 n).1 =
      { actions := [], message := "Error: No candidates", completed := true } ∧
    (process_provider_response
        ⟨{ content := ⟨parts⟩, finish_reason := fr } :: rest⟩).task_completed
      = true ∧
    (process_provider_response
        ⟨{ content := ⟨parts⟩, finish_reason := fr } :: rest⟩).final_message
      = some ("Stopped: " ++ fr.enum_label) ∧
    (run_task call1 n).1.completed = true ∧
    (run_task call1 n).1.message = "Stopped: " ++ fr.enum_label := by
  obtain ⟨cands0⟩ := resp0
  subst hr0
  have hp0 : process_provider_response ⟨[]⟩ =
      { actions := [], reasoning := some "No response from model",
        task_completed := true, final_message := some "Error: No candidates",
        function_info := [] } := rfl
  have hp1 : process_provider_response
      ⟨{ content := ⟨parts⟩, finish_reason := fr } :: rest⟩ =
      { actions := [], reasoning := extract_reasoning parts,
        task_completed := true,
        final_message := some ("Stopped: " ++ fr.enum_label),
        function_info := [] } := by
    simp only [process_provider_response]
    rw [if_neg (fun hcond => by
        rcases h4 with h | h | h
        · exact h (List.isEmpty_iff.mp hcond.1)
        · exact h hcond.2.1
        · exact h hcond.2.2),
      if_pos ⟨h1, h2, h3⟩]
  obtain ⟨m, rfl⟩ : ∃ m, n = m + 1 := ⟨n - 1, by omega⟩
  have hlabel : ("Stopped: " ++ fr.enum_label) ≠ "" := by
    cases fr <;> simp [FinishReason.enum_label]
  refine ⟨hp0, ?_, by rw [hp1], by rw [hp1], ?_, ?_⟩
  · rw [run_task, run_task_loop]
    simp [run_attempts, run_attempts_from, MAX_API_RETRIES, hc0, hp0,
      string_or, step_exec_events]
  · rw [run_task, run_task_loop]
    simp [run_attempts, run_attempts_from, MAX_API_RETRIES, hc1, hp1,
      string_or, step_exec_events, hlabel]
  · rw [run_task, run_task_loop]
    simp [run_attempts, run_attempts_from, MAX_API_RETRIES, hc1, hp1,
      string_or, step_exec_events, hlabel]

/-- Witness for terminal_stop_reports_completed_true at concrete inputs:
an empty candidate list and a MAX_TOKENS finish, one step allowed. -/
theorem terminal_stop_reports_completed_true_witness :
    process_provider_response ⟨[]⟩ =
      { actions := [], reasoning := some "No response from model",
        task_completed := true, final_message := some "Error: No candidates",
        function_info := [] } ∧
    (run_task (fun _ _ => Except.ok ⟨[]⟩) 1).1 =
      { actions := [], message := "Error: No candidates", completed := true } ∧
    (process_provider_response
        ⟨[{ content := ⟨[]⟩, finish_reason := .maxTokens }]⟩).task_completed
      = true ∧
    (process_provider_response
        ⟨[{ content := ⟨[]⟩, finish_reason := .maxTokens }]⟩).final_message
      = some ("Stopped: " ++ FinishReason.maxTokens.enum_label) ∧
    (run_task (fun _ _ =>
        Except.ok ⟨[{ content := ⟨[]⟩, finish_reason := .maxTokens }]⟩) 1).1.completed
      = true ∧
    (run_task (fun _ _ =>
        Except.ok ⟨[{ content := ⟨[]⟩, finish_reason := .maxTokens }]⟩) 1).1.message
      = "Stopped: " ++ FinishReason.maxTokens.enum_label :=
  terminal_stop_reports_completed_true ⟨[]⟩ rfl [] .maxTokens []
    (by decide) (by decide) (by decide) (Or.inr (Or.inr (by decide)))
    (fun _ _ => Except.ok ⟨[]⟩)
    (fun _ _ => Except.ok ⟨[{ content := ⟨[]⟩, finish_reason := .maxTokens }]⟩)
    1 (by decide) rfl rfl

/-- Claim C2, counterexample: a malformed-function-call response with no
content does not make the step loop continue; run_task returns an
AgentResult (completed = false, message No further actions) after a
single model call even though 3 steps were allowed. -/
theorem malformed_step_not_continued :
    (run_task (fun _ _ => Except.ok
        ⟨[{ content := ⟨[]⟩, finish_reason := .malformedFunctionCall }]⟩) 3).1 =
      { actions := [], message := "No further actions", completed := false } ∧
    count_api_calls (run_task (fun _ _ => Except.ok
        ⟨[{ content := ⟨[]⟩, finish_reason := .malformedFunctionCall }]⟩) 3).2 = 1 :=
  ⟨rfl, rfl⟩

/-- Claim C2, amended: a response with no function calls, no reasoning
text and the malformed-function-call finish signal is parsed as a soft
empty step (no actions, not completed, no message, no feedback), but the
run_task stall check then ends the run: it returns an AgentResult with
completed = false and message No further actions after one model call,
instead of continuing to the next step. -/
theorem malformed_soft_step_ends_run
    (parts : List ContentPart) (rest : List Candidate)
    (hfc : extract_function_calls parts = [])
    (hrt : extract_reasoning parts = none)
    (call : Nat → Nat → Except String GenerateContentResponse)
    (n : Nat) (hn : 0 < n)
    (hc : call 0 0 = Except.ok
      ⟨{ content := ⟨parts⟩, finish_reason := .malformedFunctionCall } :: rest⟩) :
    process_provider_response
        ⟨{ content := ⟨parts⟩, finish_reason := .malformedFunctionCall } :: rest⟩ =
      { actions := [], reasoning := none, task_completed := false,
        final_message := none, function_info := [] } ∧
    (run_task call n).1 =
      { actions := [], message := "No further actions", completed := false } ∧
    count_feedback (run_task call n).2 = 0 ∧
    count_api_calls (run_task call n).2 = 1 := by
  have hp : process_provider_response
      ⟨{ content := ⟨parts⟩, finish_reason := .malformedFunctionCall } :: rest⟩ =
      { actions := [], reasoning := none, task_completed := false,
        final_message := none, function_info := [] } := by
    simp only [process_provider_response]
    rw [if_pos ⟨by rw [hfc]; rfl, hrt, trivial⟩, hrt]
  obtain ⟨m, rfl⟩ : ∃ m, n = m + 1 := ⟨n - 1, by omega⟩
  refine ⟨hp, ?_, ?_, ?_⟩ <;>
    · rw [run_task, run_task_loop]
      simp [run_attempts, run_attempts_from, MAX_API_RETRIES, hc, hp,
        string_or, step_exec_events, count_feedback, count_api_calls]

/-- Witness for malformed_soft_step_ends_run on a concrete empty
malformed turn with 3 steps allowed. -/
theorem malformed_soft_step_ends_run_witness :
    process_provider_response
        ⟨[{ content := ⟨[]⟩, finish_reason := .malformedFunctionCall }]⟩ =
      { actions := [], reasoning := none, task_completed := false,
        final_message := none, function_info := [] } ∧
    (run_task (fun _ _ => Except.ok
        ⟨[{ content := ⟨[]⟩, finish_reason := .malformedFunctionCall }]⟩) 3).1 =
      { actions := [], message := "No further actions", completed := false } ∧
    count_feedback (run_task (fun _ _ => Except.ok
        ⟨[{ content := ⟨[]⟩, finish_reason := .malformedFunctionCall }]⟩) 3).2 = 0 ∧
    count_api_calls (run_task (fun _ _ => Except.ok
        ⟨[{ content := ⟨[]⟩, finish_reason := .malformedFunctionCall }]⟩) 3).2 = 1 :=
  malformed_soft_step_ends_run [] [] rfl rfl
    (fun _ _ => Except.ok
      ⟨[{ content := ⟨[]⟩, finish_reason := .malformedFunctionCall }]⟩)
    3 (by decide) rfl

/-- Claim C8: when every model call attempt raises, run_task makes
exactly MAX_API_RETRIES = 3 attempts for the step, sleeping the
exponential backoff delays 1 s (base * 2^0) and then 2 s (base * 2^1)
between them, and then returns, without raising, an AgentResult with
completed = false whose message embeds the last underlying error. -/
theorem api_retry_three_attempts_backoff
    (e : Nat → Nat → String)
    (call : Nat → Nat → Except String GenerateContentResponse)
    (hcall : ∀ s a, call s a = Except.error (e s a)) (n : Nat) (hn : 0 < n) :
    (run_attempts (call 0)).1 =
      [.api_call 0, .backoff 1, .api_call 1, .backoff 2, .api_call 2] ∧
    count_api_calls (run_attempts (call 0)).1 = MAX_API_RETRIES ∧
    (run_attempts (call 0)).2.1 = none ∧
    (run_attempts (call 0)).2.2 = some (e 0 2) ∧
    (run_task call n).1 =
      { actions := [],
        message := "API error after 3 retries: " ++ e 0 2,
        completed := false } ∧
    (run_task call n).2 =
      [.api_call 0, .backoff 1, .api_call 1, .backoff 2, .api_call 2] := by
  have hatt : run_attempts (call 0) =
      ([.api_call 0, .backoff 1, .api_call 1, .backoff 2, .api_call 2],
        none, some (e 0 2)) := by
    simp [run_attempts, run_attempts_from, MAX_API_RETRIES, hcall,
      RETRY_BASE_DELAY_S]
  obtain ⟨m, rfl⟩ : ∃ m, n = m + 1 := ⟨n - 1, by omega⟩
  have hmsg : ("API error after " ++ toString MAX_API_RETRIES
      ++ " retries: " ++ (some (e 0 2)).getD "None")
      = "API error after 3 retries: " ++ e 0 2 := rfl
  have hrun : run_task call (m + 1) =
      ({ actions := [],
         message := "API error after 3 retries: " ++ e 0 2,
         completed := false },
       [.api_call 0, .backoff 1, .api_call 1, .backoff 2, .api_call 2]) := by
    rw [run_task, run_task_loop]
    rw [show (run_attempts (call (0 : Nat))).2.1 = none by rw [hatt]]
    rw [show (run_attempts (call (0 : Nat))).2.2 = some (e 0 2) by rw [hatt]]
    rw [show (run_attempts (call (0 : Nat))).1 =
      [.api_call 0, .backoff 1, .api_call 1, .backoff 2, .api_call 2] by rw [hatt]]
    rw [hmsg]
  refine ⟨by rw [hatt], by rw [hatt]; rfl, by rw [hatt], by rw [hatt], ?_, ?_⟩
  · rw [hrun]
  · rw [hrun]

/-- Witness for api_retry_three_attempts_backoff: every attempt raises
the same transport error boom, one step allowed. -/
theorem api_retry_three_attempts_backoff_witness :
    (run_attempts ((fun _ _ => Except.error "boom") 0)).1 =
      [.api_call 0, .backoff 1, .api_call 1, .backoff 2, .api_call 2] ∧
    count_api_calls (run_attempts ((fun _ _ => Except.error "boom") 0)).1 =
      MAX_API_RETRIES ∧
    (run_attempts ((fun _ _ => Except.error "boom") 0)).2.1 = none ∧
    (run_attempts ((fun _ _ => Except.error "boom") 0)).2.2 = some "boom" ∧
    (run_task (fun _ _ => Except.error "boom") 1).1 =
      { actions := [],
        message := "API error after 3 retries: " ++ "boom",
        completed := false } ∧
    (run_task (fun _ _ => Except.error "boom") 1).2 =
      [.api_call 0, .backoff 1, .api_call 1, .backoff 2, .api_call 2] :=
  api_retry_three_attempts_backoff (fun _ _ => "boom")
    (fun _ _ => Except.error "boom") (fun _ _ => rfl) 1 (by decide)

/-- Model call attempts in a trace concatenation add up. -/
theorem count_api_calls_append (a b : List Event) :
    count_api_calls (a ++ b) = count_api_calls a + count_api_calls b := by
  rw [count_api_calls, count_api_calls, count_api_calls, List.filter_append,
    List.length_append]

/-- The retry loop makes at most as many call attempts as it has fuel. -/
theorem count_api_calls_run_attempts_from
    (call : Nat → Except String GenerateContentResponse) (a f : Nat) :
    count_api_calls (run_attempts_from call a f).1 ≤ f := by
  induction f generalizing a with
  | zero => simp [run_attempts_from, count_api_calls]
  | succ f ih =>
      rw [run_attempts_from]
      split
      · simp [count_api_calls]
      · split
        · simp [count_api_calls]
        · have hrec := ih (a + 1)
          show count_api_calls (Event.api_call a ::
              Event.backoff (RETRY_BASE_DELAY_S * 2 ^ a) ::
                (run_attempts_from call (a + 1) f).1) ≤ f + 1
          simp [count_api_calls, List.filter_cons] at hrec ⊢
          omega

/-- Action execution and feedback events contain no model call attempts. -/
theorem count_api_calls_step_exec (pr : ProcessResult) :
    count_api_calls (step_exec_events pr) = 0 := by
  rw [count_api_calls, List.length_eq_zero, List.filter_eq_nil_iff]
  intro ev hev
  rw [step_exec_events, List.mem_flatMap] at hev
  obtain ⟨i, _, hev⟩ := hev
  simp only [List.mem_cons, List.mem_singleton, List.not_mem_nil, or_false] at hev
  rcases hev with h | h
  · subst h; exact Bool.false_ne_true
  · subst h; exact Bool.false_ne_true

/-- The step loop makes at most MAX_API_RETRIES call attempts per unit of
step fuel. -/
theorem run_task_loop_api_bound
    (call : Nat → Nat → Except String GenerateContentResponse)
    (fuel : Nat) : ∀ (step : Nat) (acc : List ActionModel),
    count_api_calls (run_task_loop call step acc fuel).2 ≤
      fuel * MAX_API_RETRIES := by
  induction fuel with
  | zero => intro step acc; simp [run_task_loop, count_api_calls]
  | succ f ih =>
      intro step acc
      have hatt : count_api_calls (run_attempts (call step)).1 ≤ 3 := by
        have := count_api_calls_run_attempts_from (call step) 0 MAX_API_RETRIES
        rwa [MAX_API_RETRIES] at this
      rw [run_task_loop, MAX_API_RETRIES]
      cases hro : (run_attempts (call step)).2.1 with
      | none =>
          simp only [hro]
          omega
      | some resp =>
          simp only [hro]
          by_cases htc : (process_provider_response resp).task_completed
          · rw [if_pos htc]
            simp only [count_api_calls_append, count_api_calls_step_exec]
            omega
          · rw [if_neg htc]
            by_cases hie : (process_provider_response resp).actions.isEmpty
            · rw [if_pos hie]
              simp only [count_api_calls_append, count_api_calls_step_exec]
              omega
            · rw [if_neg hie]
              have hrec := ih (step + 1)
                (acc ++ (process_provider_response resp).actions.map (·.action))
              rw [MAX_API_RETRIES] at hrec
              simp only [count_api_calls_append, count_api_calls_step_exec]
              omega

/-- If every model call succeeds with a response carrying actions and no
completion, the step loop runs its whole budget and ends with the
max-steps result. -/
theorem run_task_loop_max_steps
    (call : Nat → Nat → Except String GenerateContentResponse)
    (hcall : ∀ s a, ∃ r, call s a = Except.ok r ∧
      (process_provider_response r).actions ≠ [] ∧
      (process_provider_response r).task_completed = false)
    (fuel : Nat) : ∀ (step : Nat) (acc : List ActionModel),
    (run_task_loop call step acc fuel).1.message = "Max steps reached" ∧
    (run_task_loop call step acc fuel).1.completed = false := by
  induction fuel with
  | zero => intro step acc; exact ⟨rfl, rfl⟩
  | succ f ih =>
      intro step acc
      obtain ⟨r, hr, hne, htc⟩ := hcall step 0
      have hatt : (run_attempts (call step)).2.1 = some r := by
        simp [run_attempts, run_attempts_from, MAX_API_RETRIES, hr]
      rw [run_task_loop]
      simp only [hatt]
      rw [if_neg (by rw [htc]; exact Bool.false_ne_true)]
      rw [if_neg (fun hemp => hne (List.isEmpty_iff.mp hemp))]
      exact ih (step + 1) _

/-- Claim C10: for every model behaviour and every step budget, run_task
is a total function returning an AgentResult (no code path raises), with
at most max_steps * MAX_API_RETRIES model call attempts overall; and
whenever every step yields actions without the completion flag, the loop
exhausts its budget and returns completed = false with the message Max
steps reached. -/
theorem run_task_bounded_and_max_steps
    (call : Nat → Nat → Except String GenerateContentResponse) (n : Nat) :
    count_api_calls (run_task call n).2 ≤ n * MAX_API_RETRIES ∧
    ((∀ s a, ∃ r, call s a = Except.ok r ∧
        (process_provider_response r).actions ≠ [] ∧
        (process_provider_response r).task_completed = false) →
      (run_task call n).1.message = "Max steps reached" ∧
      (run_task call n).1.completed = false) :=
  ⟨run_task_loop_api_bound call n 0 [],
   fun h => run_task_loop_max_steps call h n 0 []⟩

/-- The function call of the sample response below. -/
def sample_tap_call : FunctionCall :=
  { name := "tap_at", args := [("x", PyValue.int 5), ("y", PyValue.int 6)] }

/-- A concrete response carrying one tap_at call with a STOP finish. -/
def sample_tap_response : GenerateContentResponse :=
  { candidates :=
      [{ content :=
          { parts :=
              [{ text := none, function_call := some sample_tap_call,
                 function_response := none }] },
         finish_reason := FinishReason.stop }] }

/-- Parsing the sample response yields one translated tap action and no
completion flag. -/
theorem process_sample_tap_response :
    process_provider_response sample_tap_response =
      { actions :=
          [{ action_type := "tap",
             action := ActionModel.tap { x := 5, y := 6, duration_ms := none } }],
        reasoning := none, task_completed := false, final_message := none,
        function_info := [("tap_at", [("x", PyValue.int 5), ("y", PyValue.int 6)])] } :=
  rfl

/-- Witness for run_task_bounded_and_max_steps: a model that always taps
and never completes, with a budget of 2 steps. -/
theorem run_task_bounded_and_max_steps_witness :
    count_api_calls (run_task (fun _ _ => Except.ok sample_tap_response) 2).2 ≤
      2 * MAX_API_RETRIES ∧
    (run_task (fun _ _ => Except.ok sample_tap_response) 2).1.message =
      "Max steps reached" ∧
    (run_task (fun _ _ => Except.ok sample_tap_response) 2).1.completed = false :=
  ⟨(run_task_bounded_and_max_steps (fun _ _ => Except.ok sample_tap_response) 2).1,
   (run_task_bounded_and_max_steps (fun _ _ => Except.ok sample_tap_response) 2).2
     (fun _ _ => ⟨sample_tap_response, rfl,
       by rw [process_sample_tap_response]; exact List.cons_ne_nil _ _,
       rfl⟩)⟩

end Stagehand
